import Mathlib

/-!
Verification of the Claude OAuth API server (`src/main.py`).

The server drives a headless browser through a login flow and an OAuth
authorization flow.  We shallowly embed the three request handlers
(`login`, `authorize_oauth`, `get_status`) together with the API-key
dependency (`verify_api_key`) as pure Lean functions.  All interactions
with the browser (navigation, selector probing, clicking, reading text)
are modelled by an explicit environment record whose fields give the
outcome of each browser operation: `Except String α` fields model
operations that may raise an exception carrying a message string.
The browser context's open pages are modelled as a list of `Page`
values (an identity plus a current URL), threaded through each handler.
-/

namespace ClaudeOAuth

/-- An HTTP error raised via FastAPI's HTTPException: status code and detail. -/
structure HTTPError where
  status : Nat
  detail : String
deriving DecidableEq, Repr

/-- One open page of the shared browser context: an identity and its current URL. -/
structure Page where
  id : Nat
  url : String
deriving DecidableEq, Repr

/-- Body of POST /login (model of the `LoginRequest` pydantic model). -/
structure LoginRequest where
  email : String
  verification_code : Option String := none
deriving DecidableEq, Repr

/-- Body of POST /oauth/authorize (model of the `OAuthRequest` pydantic model). -/
structure OAuthRequest where
  oauth_url : String
deriving DecidableEq, Repr

/-- Response of POST /login (model of the `LoginResponse` pydantic model). -/
structure LoginResponse where
  status : String
  message : String
  session_active : Bool := false
deriving DecidableEq, Repr

/-- Response of POST /oauth/authorize; the generated `request_id` and
`timestamp` fields are nondeterministic metadata and are not modelled. -/
structure OAuthResponse where
  success : Bool
  code : Option String := none
  error : Option String := none
deriving DecidableEq, Repr

/-- Response of GET /status. -/
structure StatusResponse where
  browser_active : Bool
  pages_open : Nat
  current_url : Option String
  logged_in : Bool
deriving DecidableEq, Repr

/-- Remove `p` as a leading run of `s`: `some rest` when `s = p ++ rest`. -/
def stripLead : List Char → List Char → Option (List Char)
  | [], s => some s
  | _ :: _, [] => none
  | p :: ps, c :: cs => if p = c then stripLead ps cs else none

/-- Python's `pat in s` substring test (scan every suffix for `pat` as a lead). -/
def pyContainsAux (pat : List Char) : List Char → Bool
  | [] => (stripLead pat []).isSome
  | c :: cs => (stripLead pat (c :: cs)).isSome || pyContainsAux pat cs

/-- Python's `pat in s` on strings. -/
def pyContains (s pat : String) : Bool := pyContainsAux pat.toList s.toList

/-- Python's `s.split(sep)` for a nonempty separator, fuelled so that the
recursion is structural (the fuel is the length of the input, which bounds
the number of scanning steps). -/
def pySplitAux (sep : List Char) : Nat → List Char → List (List Char)
  | _, [] => [[]]
  | 0, s => [s]
  | fuel + 1, c :: cs =>
    match stripLead sep (c :: cs) with
    | some rest => [] :: pySplitAux sep fuel rest
    | none =>
      match pySplitAux sep fuel cs with
      | [] => [[c]]
      | chunk :: more => (c :: chunk) :: more

/-- Python's `s.split(sep)` on strings (for the nonempty separators used here). -/
def pySplit (sep s : String) : List String :=
  (pySplitAux sep.toList s.toList.length s.toList).map fun l => String.mk l

/-- Python's `s.strip()` (whitespace removed from both ends). -/
def pyStrip (s : String) : String :=
  String.mk (((s.toList.dropWhile Char.isWhitespace).reverse.dropWhile
    Char.isWhitespace).reverse)

/-- Python truthiness of an `Optional[str]`: `None` and `""` are falsy. -/
def optStrTruthy : Option String → Bool
  | none => false
  | some s => s != ""

/-- The `verify_api_key` dependency: rejects with 401 when the header is
absent, empty, or different from the configured key (Python:
`if not api_key or api_key != API_KEY`). -/
def verify_api_key (API_KEY : String) (api_key : Option String) :
    Except HTTPError String :=
  if !(optStrTruthy api_key) || (api_key != some API_KEY) then
    .error ⟨401, "Invalid API key"⟩
  else
    .ok API_KEY

/-- FastAPI dependency wiring: a protected handler runs only when
`verify_api_key` succeeds; otherwise the 401 propagates and the state
is untouched. -/
def withAuth {α σ : Type} (API_KEY : String) (api_key : Option String)
    (handler : σ → Except HTTPError α × σ) (st : σ) :
    Except HTTPError α × σ :=
  match verify_api_key API_KEY api_key with
  | .error e => (.error e, st)
  | .ok _ => handler st

/-- Environment of one POST /login call: the outcome of each browser
operation performed by the handler, in source order.  `Except.error e`
means the operation raised an exception whose string form is `e`. -/
structure LoginEnv where
  newPageResult : Except String Unit
  gotoResult : Except String Unit
  fillResult : Except String Unit
  clickResult : Except String Unit
  verificationPromptAppears : Bool
  codeInputResult : Except String Unit
  fillDigitsResult : Except String Unit
  settleResult : Except String Unit
  finalUrl : String
deriving Repr

/-- A page freshly opened by `browser_context.new_page()`. -/
def freshPage (st : List Page) : Page := ⟨st.length, "about:blank"⟩

/-- The POST /login handler of `src/main.py`.  Returns the HTTP-level
result (a `LoginResponse`, or an `HTTPError` when an HTTPException is
raised) and the browser context's page list after the call.  Every
unclassified exception is turned into a 500 whose detail is the
exception string, after closing the page opened by this call. -/
def login (env : LoginEnv) (req : LoginRequest) (st : List Page) :
    Except HTTPError LoginResponse × List Page :=
  match env.newPageResult with
  | .error e => (.error ⟨500, e⟩, st)
  | .ok _ =>
    let p := freshPage st
    if !(optStrTruthy req.verification_code) then
      -- Step 1: initial login with email only
      match env.gotoResult with
      | .error e => (.error ⟨500, e⟩, st)
      | .ok _ =>
        match env.fillResult with
        | .error e => (.error ⟨500, e⟩, st)
        | .ok _ =>
          match env.clickResult with
          | .error e => (.error ⟨500, e⟩, st)
          | .ok _ =>
            if env.verificationPromptAppears then
              (.ok ⟨"verification_required",
                "Check your email for verification code", false⟩, st)
            else
              (.ok ⟨"error", "Failed to reach verification screen", false⟩, st)
    else
      -- Step 2: complete login with the verification code
      match env.gotoResult with
      | .error e => (.error ⟨500, e⟩, st)
      | .ok _ =>
        match env.fillResult with
        | .error e => (.error ⟨500, e⟩, st)
        | .ok _ =>
          match env.clickResult with
          | .error e => (.error ⟨500, e⟩, st)
          | .ok _ =>
            match env.codeInputResult with
            | .error e => (.error ⟨500, e⟩, st)
            | .ok _ =>
              match env.fillDigitsResult with
              | .error e => (.error ⟨500, e⟩, st)
              | .ok _ =>
                match env.settleResult with
                | .error e => (.error ⟨500, e⟩, st)
                | .ok _ =>
                  if pyContains env.finalUrl "claude.ai/chat" ||
                      pyContains env.finalUrl "claude.ai/new" then
                    (.ok ⟨"success", "Successfully logged in to Claude", true⟩,
                      st ++ [{ p with url := env.finalUrl }])
                  else
                    (.ok ⟨"failed", "Login failed - please check credentials",
                      false⟩, st)

/-- Outcome of probing one authorize-button selector: the result of
`locator(sel).first.is_visible()` and of `element.click()`. -/
structure SelectorProbe where
  visible : Except String Bool
  click : Except String Unit

/-- Outcome of probing one code-display selector: visibility and the
result of `element.text_content()` (a Python `Optional[str]`). -/
structure CodeProbe where
  visible : Except String Bool
  text : Except String (Option String)

/-- Environment of one POST /oauth/authorize call. -/
structure OAuthEnv where
  newPageResult : Except String Unit
  gotoResult : Except String Unit
  urlAfterGoto : String
  selProbe : String → SelectorProbe
  bodyText : Except String String
  settleResult : Except String Unit
  finalUrl : String
  codeProbe : String → CodeProbe
  pageContent : Except String String

/-- The fixed priority list of candidate authorize-button selectors. -/
def authorize_selectors : List String :=
  ["button:has-text(\"Authorize\")",
   "button:has-text(\"Allow\")",
   "button:has-text(\"Approve\")",
   "button[type=\"submit\"]:not(:disabled)",
   "button.btn-primary",
   "input[type=\"submit\"][value*=\"Authorize\"]"]

/-- The fixed list of candidate code-display selectors. -/
def code_selectors : List String :=
  ["code:has-text(\"\")",
   "pre:has-text(\"\")",
   ".authorization-code",
   "input[readonly]:not([type=\"password\"])",
   "span.code",
   "div.code"]

/-- The authorize-button loop: try each selector in order inside a
`try`; a probe exception or an invisible element moves to the next
selector, and a click exception is likewise caught and skipped.
Returns the selector that was actually clicked, if any. -/
def clickFirstVisible (probe : String → SelectorProbe) : List String → Option String
  | [] => none
  | s :: rest =>
    match (probe s).visible with
    | .ok true =>
      match (probe s).click with
      | .ok _ => some s
      | .error _ => clickFirstVisible probe rest
    | _ => clickFirstVisible probe rest

/-- The code-display loop: first visible element whose text is truthy
and longer than 10 characters yields that text stripped; probe
exceptions are caught and skipped. -/
def firstCodeText (probe : String → CodeProbe) : List String → Option String
  | [] => none
  | s :: rest =>
    match (probe s).visible with
    | .ok true =>
      match (probe s).text with
      | .ok (some t) =>
        if t != "" && decide (10 < t.toList.length) then some (pyStrip t)
        else firstCodeText probe rest
      | _ => firstCodeText probe rest
    | _ => firstCodeText probe rest

/-- Character class of the regex fragment matching a quote, whitespace
or a colon (the separator class of the first two code patterns). -/
def isSepChar (c : Char) : Bool := c == '"' || c.isWhitespace || c == ':'

/-- Character class `A-Z`, `a-z`, `0-9`, underscore or hyphen. -/
def isWordChar (c : Char) : Bool := c.isAlphanum || c == '_' || c == '-'

/-- Match the first code pattern (literal `code`, one or more separator
characters, then a captured run of at least 20 word characters) at the
head of the input; the two character classes are disjoint, so the greedy
quantifiers reduce to maximal runs. -/
def matchP1At : List Char → Option String
  | 'c' :: 'o' :: 'd' :: 'e' :: rest =>
    let seps := rest.takeWhile isSepChar
    if seps.isEmpty then none
    else
      let word := (rest.dropWhile isSepChar).takeWhile isWordChar
      if 20 ≤ word.length then some (String.mk word) else none
  | _ => none

/-- Leftmost match of the first code pattern (Python `re.search`). -/
def searchP1 : List Char → Option String
  | [] => none
  | c :: rest =>
    match matchP1At (c :: rest) with
    | some s => some s
    | none => searchP1 rest

/-- Match the second code pattern (literal `authorization`, any single
character other than a newline, then the same tail as the first
pattern: literal `code`, separators, and a 20+ word-character capture). -/
def matchP2At : List Char → Option String
  | 'a' :: 'u' :: 't' :: 'h' :: 'o' :: 'r' :: 'i' :: 'z' :: 'a' :: 't' :: 'i'
      :: 'o' :: 'n' :: d :: rest =>
    if d == '\n' then none else matchP1At rest
  | _ => none

/-- Leftmost match of the second code pattern. -/
def searchP2 : List Char → Option String
  | [] => none
  | c :: rest =>
    match matchP2At (c :: rest) with
    | some s => some s
    | none => searchP2 rest

/-- Match the third code pattern (a captured run of at least 40 word
characters enclosed between a greater-than and a less-than sign) at the
head of the input. -/
def matchP3At : List Char → Option String
  | '>' :: rest =>
    let word := rest.takeWhile isWordChar
    if 40 ≤ word.length then
      match rest.dropWhile isWordChar with
      | '<' :: _ => some (String.mk word)
      | _ => none
    else none
  | _ => none

/-- Leftmost match of the third code pattern. -/
def searchP3 : List Char → Option String
  | [] => none
  | c :: rest =>
    match matchP3At (c :: rest) with
    | some s => some s
    | none => searchP3 rest

/-- The `code_patterns` loop: the three regex patterns tried in order
over the rendered HTML, first match wins. -/
def code_patterns_search (content : String) : Option String :=
  match searchP1 content.toList with
  | some c => some c
  | none =>
    match searchP2 content.toList with
    | some c => some c
    | none => searchP3 content.toList

/-- The URL splitting of the handler:
`current_url.split("code=")[1].split("&")[0]`. -/
def splitCode (url : String) : String :=
  (pySplit "&" ((pySplit "code=" url).getD 1 "")).getD 0 ""

/-- Extraction strategy (a): a `code=` parameter in the final URL. -/
def stratA (url : String) : Option String :=
  if pyContains url "code=" then some (splitCode url) else none

/-- Extraction strategy (b): text of a candidate code-display element. -/
def stratB (probe : String → CodeProbe) : Option String :=
  firstCodeText probe code_selectors

/-- Extraction strategy (c): the three regex patterns over the rendered
HTML; yields nothing when reading the page content raised (the
exception is caught by the extraction try-block and swallowed). -/
def stratC (content : Except String String) : Option String :=
  match content with
  | .ok c => code_patterns_search c
  | .error _ => none

/-- Combine the three extraction strategies in their fixed order into
the response the handler returns. -/
def extractResult (a b c : Option String) : OAuthResponse :=
  match a with
  | some v => ⟨true, some v, none⟩
  | none =>
    match b with
    | some v => ⟨true, some v, none⟩
    | none =>
      match c with
      | some v => ⟨true, some v, none⟩
      | none =>
        ⟨false, none, some "Could not extract authorization code from response"⟩

/-- The code-extraction phase of POST /oauth/authorize, entered after a
successful authorize click and settlement; `p2` is the page with its
post-settlement URL.  Success paths keep the page open; the
all-strategies-failed path closes the page only when this call opened it. -/
def extractPhase (env : OAuthEnv) (isNew : Bool) (p2 : Page)
    (others : List Page) : Except HTTPError OAuthResponse × List Page :=
  let kept := if isNew then [p2] else p2 :: others
  match stratA p2.url with
  | some c => (.ok ⟨true, some c, none⟩, kept)
  | none =>
    match stratB env.codeProbe with
    | some t => (.ok ⟨true, some t, none⟩, kept)
    | none =>
      match stratC env.pageContent with
      | some c => (.ok ⟨true, some c, none⟩, kept)
      | none =>
        (.ok ⟨false, none,
            some "Could not extract authorization code from response"⟩,
          if isNew then [] else p2 :: others)

/-- Body of POST /oauth/authorize once a page is at hand; `isNew` records
whether this call opened the page (only then do the failure paths close
it).  Unclassified exceptions become `success:false` bodies; the only
HTTPException raised is the 401 on a login redirect, re-raised as such. -/
def authorizeCore (env : OAuthEnv) (isNew : Bool) (p : Page)
    (others : List Page) : Except HTTPError OAuthResponse × List Page :=
  match env.gotoResult with
  | .error e => (.ok ⟨false, none, some e⟩, if isNew then [] else p :: others)
  | .ok _ =>
    let p1 : Page := { p with url := env.urlAfterGoto }
    if pyContains env.urlAfterGoto "login" then
      (.error ⟨401, "Not logged in. Please use /login endpoint first."⟩,
        if isNew then [] else p1 :: others)
    else
      match clickFirstVisible env.selProbe authorize_selectors with
      | none =>
        match env.bodyText with
        | .error e =>
          (.ok ⟨false, none, some e⟩, if isNew then [] else p1 :: others)
        | .ok _ =>
          (.ok ⟨false, none, some "Could not find authorize button on page"⟩,
            if isNew then [] else p1 :: others)
      | some _ =>
        match env.settleResult with
        | .error e =>
          (.ok ⟨false, none, some e⟩, if isNew then [] else p1 :: others)
        | .ok _ => extractPhase env isNew { p1 with url := env.finalUrl } others

/-- The POST /oauth/authorize handler of `src/main.py`: reuse the first
open page when one exists, otherwise open a fresh one (whose failure to
open is itself swallowed into a `success:false` body, the page variable
still being unbound there). -/
def authorize (env : OAuthEnv) (req : OAuthRequest) (st : List Page) :
    Except HTTPError OAuthResponse × List Page :=
  match st with
  | [] =>
    match env.newPageResult with
    | .error e => (.ok ⟨false, none, some e⟩, [])
    | .ok _ => authorizeCore env true (freshPage []) []
  | p :: rest => authorizeCore env false p rest

/-- The GET /status handler of `src/main.py`; the argument is `none`
when the global browser context has not been created. -/
def get_status (ctx : Option (List Page)) : StatusResponse :=
  let pages := ctx.getD []
  let current_page := pages.head?
  { browser_active := ctx.isSome
    pages_open := pages.length
    current_url := current_page.map Page.url
    logged_in :=
      match current_page with
      | some p => pyContains p.url "claude.ai/chat" || pyContains p.url "claude.ai/new"
      | none => false }

/-- POST /login behind the API-key dependency. -/
def loginEndpoint (API_KEY : String) (api_key : Option String) (env : LoginEnv)
    (req : LoginRequest) (st : List Page) :
    Except HTTPError LoginResponse × List Page :=
  withAuth API_KEY api_key (login env req) st

/-- POST /oauth/authorize behind the API-key dependency. -/
def authorizeEndpoint (API_KEY : String) (api_key : Option String)
    (env : OAuthEnv) (req : OAuthRequest) (st : List Page) :
    Except HTTPError OAuthResponse × List Page :=
  withAuth API_KEY api_key (authorize env req) st

/-- GET /status behind the API-key dependency. -/
def statusEndpoint (API_KEY : String) (api_key : Option String)
    (ctx : Option (List Page)) :
    Except HTTPError StatusResponse × Option (List Page) :=
  withAuth API_KEY api_key (fun c => (.ok (get_status c), c)) ctx

/-- Value of an ASCII hexadecimal digit. -/
def hexDigitVal (c : Char) : Option Nat :=
  if c.isDigit then some (c.toNat - '0'.toNat)
  else if 'a' ≤ c ∧ c ≤ 'f' then some (c.toNat - 'a'.toNat + 10)
  else if 'A' ≤ c ∧ c ≤ 'F' then some (c.toNat - 'A'.toNat + 10)
  else none

/-- Modelled from the spec: percent-decoding of a URL component
("URL-decoded" in the spec's words); used only to compare the claimed
decoded value with what the code actually returns. -/
def urlDecodeAux : List Char → List Char
  | '%' :: h1 :: h2 :: rest =>
    match hexDigitVal h1, hexDigitVal h2 with
    | some a, some b => Char.ofNat (16 * a + b) :: urlDecodeAux rest
    | _, _ => '%' :: urlDecodeAux (h1 :: h2 :: rest)
  | c :: rest => c :: urlDecodeAux rest
  | [] => []

/-- Modelled from the spec: URL-decoding on strings. -/
def urlDecode (s : String) : String := String.mk (urlDecodeAux s.toList)

/-- The Boolean test applied to each authorize-button selector: its
element's visibility probe returned `true` (an exception or an
invisible element both count as not visible). -/
def visProbeTrue (probe : String → SelectorProbe) (s : String) : Bool :=
  match (probe s).visible with
  | .ok true => true
  | _ => false

/-- Probe world in which the first authorize-button selector is visible
and clickable and every other selector is invisible. -/
def selProbeFirstOk : String → SelectorProbe := fun s =>
  if s = "button:has-text(\"Authorize\")" then ⟨.ok true, .ok ()⟩
  else ⟨.ok false, .ok ()⟩

/-- Probe world in which no code-display element is visible. -/
def codeProbeEmpty : String → CodeProbe := fun _ => ⟨.ok false, .ok none⟩

/-- A page already open before the call, as left by a successful login. -/
def p0 : Page := ⟨0, "https://claude.ai/new"⟩

/-- Login environment in which every browser operation succeeds, the
verification prompt appears, and the final URL is an authenticated one. -/
def envLoginOk : LoginEnv :=
  ⟨.ok (), .ok (), .ok (), .ok (), true, .ok (), .ok (), .ok (),
    "https://claude.ai/new/chat-1"⟩

/-- Login environment in which the verification prompt never appears. -/
def envLoginNoPrompt : LoginEnv := { envLoginOk with verificationPromptAppears := false }

/-- Login environment in which navigation raises an exception. -/
def envLoginGotoFail : LoginEnv := { envLoginOk with gotoResult := .error "boom" }

/-- OAuth environment for a smooth authorization: consent page reached,
first authorize selector visible, redirect to a callback URL carrying a
code parameter. -/
def envOAuthOk : OAuthEnv :=
  { newPageResult := .ok ()
    gotoResult := .ok ()
    urlAfterGoto := "https://idp.example/consent"
    selProbe := selProbeFirstOk
    bodyText := .ok "body text"
    settleResult := .ok ()
    finalUrl := "https://app.example/cb?code=FIRSTCODE1234567890&s=1"
    codeProbe := codeProbeEmpty
    pageContent := .ok "" }

/-- OAuth environment whose final redirect carries a percent-encoded
code value. -/
def envOAuthEncoded : OAuthEnv :=
  { envOAuthOk with finalUrl := "https://app.example/cb?code=abc%2Fdef123&state=xyz" }

/-- OAuth environment in which navigation raises an exception. -/
def envOAuthGotoFail : OAuthEnv := { envOAuthOk with gotoResult := .error "boom" }

/-- OAuth environment in which the post-navigation URL is a login
redirect. -/
def envOAuthLogin : OAuthEnv := { envOAuthOk with urlAfterGoto := "https://claude.ai/login" }

/-- OAuth environment in which no authorize-button selector is visible. -/
def envOAuthNoBtn : OAuthEnv :=
  { envOAuthOk with selProbe := fun _ => ⟨.ok false, .ok ()⟩ }

/-- OAuth environment in which the final URL has no code parameter and
the code is instead displayed by a page element (with padding to be
stripped). -/
def envOAuthTextCode : OAuthEnv :=
  { envOAuthOk with
      finalUrl := "https://app.example/done"
      codeProbe := fun s =>
        if s = ".authorization-code" then ⟨.ok true, .ok (some "  ABCDEFGHIJK123  ")⟩
        else ⟨.ok false, .ok none⟩ }

/-! Helper lemmas shared by the claim theorems. -/

/-- A key different from the configured one (including an absent key) is
rejected with a 401. -/
theorem verify_api_key_reject (API_KEY : String) (k : Option String)
    (h : k ≠ some API_KEY) :
    verify_api_key API_KEY k = .error ⟨401, "Invalid API key"⟩ := by
  have hb : (k != some API_KEY) = true := bne_iff_ne.mpr h
  rw [verify_api_key, hb, Bool.or_true, if_pos rfl]

/-- When every click succeeds, the authorize-button loop clicks exactly
the first selector whose visibility probe returned `true`. -/
theorem clickFirstVisible_eq_find (probe : String → SelectorProbe)
    (l : List String) (h : ∀ s ∈ l, (probe s).click = .ok ()) :
    clickFirstVisible probe l = l.find? (visProbeTrue probe) := by
  induction l with
  | nil => rfl
  | cons s rest ih =>
    have hs : (probe s).click = .ok () := h s (List.mem_cons_self s rest)
    have hrest : ∀ t ∈ rest, (probe t).click = .ok () :=
      fun t ht => h t (List.mem_cons_of_mem s ht)
    rw [clickFirstVisible, List.find?]
    cases hv : (probe s).visible with
    | error e => simp [visProbeTrue, hv, ih hrest]
    | ok b =>
      cases b with
      | true => simp [visProbeTrue, hv, hs]
      | false => simp [visProbeTrue, hv, ih hrest]

/-- The extraction phase returns the combination of the three
strategies in their fixed order. -/
theorem extractPhase_fst (env : OAuthEnv) (isNew : Bool) (p2 : Page)
    (others : List Page) :
    (extractPhase env isNew p2 others).1 =
      .ok (extractResult (stratA p2.url) (stratB env.codeProbe)
            (stratC env.pageContent)) := by
  cases hA : stratA p2.url <;> cases hB : stratB env.codeProbe <;>
    cases hC : stratC env.pageContent <;>
      simp [extractPhase, extractResult, hA, hB, hC]

/-- Every HTTPException the authorize handler lets escape is the
401 raised on a login redirect. -/
theorem authorizeCore_error (env : OAuthEnv) (isNew : Bool) (p : Page)
    (others : List Page) (err : HTTPError)
    (h : (authorizeCore env isNew p others).1 = .error err) :
    err = ⟨401, "Not logged in. Please use /login endpoint first."⟩ := by
  rw [authorizeCore] at h
  cases hg : env.gotoResult with
  | error e => rw [hg] at h; exact Except.noConfusion h
  | ok u =>
    rw [hg] at h
    simp only at h
    by_cases hl : pyContains env.urlAfterGoto "login" = true
    · rw [if_pos hl] at h
      exact (Except.error.inj h).symm
    · rw [if_neg hl] at h
      cases hc : clickFirstVisible env.selProbe authorize_selectors with
      | none =>
        rw [hc] at h
        cases hb : env.bodyText with
        | error e => rw [hb] at h; exact Except.noConfusion h
        | ok t => rw [hb] at h; exact Except.noConfusion h
      | some s =>
        rw [hc] at h
        cases hs : env.settleResult with
        | error e => rw [hs] at h; exact Except.noConfusion h
        | ok u2 =>
          rw [hs] at h
          rw [extractPhase_fst] at h
          exact Except.noConfusion h

/-! The claims. -/

/-- C1, counterexample: against a final redirect URL carrying the
percent-encoded code value `abc%2Fdef123`, the endpoint returns the raw
(still percent-encoded) value, not the URL-decoded `abc/def123` the
claim demands. -/
theorem C1_counterexample :
    (authorize envOAuthEncoded ⟨"https://idp.example/consent"⟩
        [⟨1, "https://claude.ai/new"⟩]).1 =
      .ok ⟨true, some "abc%2Fdef123", none⟩ ∧
    urlDecode "abc%2Fdef123" = "abc/def123" ∧
    ("abc%2Fdef123" : String) ≠ "abc/def123" :=
  ⟨rfl, rfl, by decide⟩

/-- C1 (amended): when navigation succeeds, the reached URL is not a
login redirect, some authorize selector is clicked, settlement succeeds
and the final URL contains `code=`, the endpoint returns success with
the code taken verbatim from the URL by string splitting (the value
after the first `code=`, cut at the next `&`), with no URL-decoding. -/
theorem C1_amended (env : OAuthEnv) (req : OAuthRequest) (st : List Page)
    (hnp : env.newPageResult = .ok ()) (hg : env.gotoResult = .ok ())
    (hl : pyContains env.urlAfterGoto "login" = false)
    (hc : (clickFirstVisible env.selProbe authorize_selectors).isSome = true)
    (hs : env.settleResult = .ok ())
    (hcode : pyContains env.finalUrl "code=" = true) :
    (authorize env req st).1 = .ok ⟨true, some (splitCode env.finalUrl), none⟩ := by
  obtain ⟨s, hsel⟩ := Option.isSome_iff_exists.mp hc
  have hcore : ∀ isNew p others,
      (authorizeCore env isNew p others).1 =
        .ok ⟨true, some (splitCode env.finalUrl), none⟩ := by
    intro isNew p others
    rw [authorizeCore, hg]
    simp only
    rw [if_neg (by simp [hl]), hsel, hs, extractPhase_fst]
    have hA : stratA env.finalUrl = some (splitCode env.finalUrl) := by
      rw [stratA, if_pos hcode]
    simp [hA, extractResult]
  cases st with
  | nil => rw [authorize, hnp]; exact hcore true (freshPage []) []
  | cons p rest => exact hcore false p rest

/-- C1 (amended) witness: a concrete smooth run returns the raw value
between `code=` and the next ampersand. -/
theorem C1_amended_witness :
    (authorize envOAuthOk ⟨"https://idp.example/consent"⟩ []).1 =
      .ok ⟨true, some "FIRSTCODE1234567890", none⟩ := by
  have h := C1_amended envOAuthOk ⟨"https://idp.example/consent"⟩ []
    rfl rfl rfl rfl rfl rfl
  exact h.trans rfl

/-- C2, counterexample: with the configured API key set to the empty
string, a request carrying exactly that configured key is still
rejected with a 401 (Python's `not api_key` treats the empty header as
absent), so "a request carrying the exact configured key passes" fails. -/
theorem C2_counterexample :
    verify_api_key "" (some "") = .error ⟨401, "Invalid API key"⟩ ∧
    statusEndpoint "" (some "") (some []) =
      (.error ⟨401, "Invalid API key"⟩, some []) :=
  ⟨rfl, rfl⟩

/-- C2 (amended): any request whose X-API-Key header is absent or
different from the configured key gets a 401 from every protected
endpoint with the underlying flow not executed (state unchanged), and a
request carrying the exact configured key passes the auth check
provided the configured key is nonempty. -/
theorem C2_amended (API_KEY : String) (k : Option String) :
    (k ≠ some API_KEY →
      (∀ env req st, loginEndpoint API_KEY k env req st =
        (.error ⟨401, "Invalid API key"⟩, st)) ∧
      (∀ env req st, authorizeEndpoint API_KEY k env req st =
        (.error ⟨401, "Invalid API key"⟩, st)) ∧
      (∀ ctx, statusEndpoint API_KEY k ctx =
        (.error ⟨401, "Invalid API key"⟩, ctx))) ∧
    (API_KEY ≠ "" → verify_api_key API_KEY (some API_KEY) = .ok API_KEY) := by
  constructor
  · intro hk
    have hv := verify_api_key_reject API_KEY k hk
    refine ⟨fun env req st => ?_, fun env req st => ?_, fun ctx => ?_⟩ <;>
      simp [loginEndpoint, authorizeEndpoint, statusEndpoint, withAuth, hv]
  · intro hne
    have h1 : optStrTruthy (some API_KEY) = true := bne_iff_ne.mpr hne
    have h2 : (some API_KEY != some API_KEY) = false := by simp
    rw [verify_api_key, h1, h2]
    simp

/-- C2 (amended) witness: with key "secret", an absent header is
rejected by POST /login with the state untouched, and a header carrying
"secret" passes the check. -/
theorem C2_amended_witness :
    loginEndpoint "secret" none envLoginOk ⟨"user@example.com", none⟩ [] =
      (.error ⟨401, "Invalid API key"⟩, []) ∧
    verify_api_key "secret" (some "secret") = .ok "secret" := by
  have h := C2_amended "secret" none
  exact ⟨(h.1 (by simp)).1 envLoginOk ⟨"user@example.com", none⟩ [],
    h.2 (by simp)⟩

/-- C3, counterexample: when the verification-code prompt never
appears, the first login call returns status "error", which is neither
"verification_required" nor "challenge_detected". -/
theorem C3_counterexample :
    (login envLoginNoPrompt ⟨"user@example.com", none⟩ []).1 =
      .ok ⟨"error", "Failed to reach verification screen", false⟩ ∧
    ("error" : String) ≠ "verification_required" ∧
    ("error" : String) ≠ "challenge_detected" :=
  ⟨rfl, by decide, by decide⟩

/-- C3 (amended): a POST /login call without a verification code that
produces a response (rather than a 500) has status
"verification_required" or "error", never "success", and its
session_active is false. -/
theorem C3_amended (env : LoginEnv) (req : LoginRequest) (st : List Page)
    (r : LoginResponse) (hc : optStrTruthy req.verification_code = false)
    (h : (login env req st).1 = .ok r) :
    (r.status = "verification_required" ∨ r.status = "error") ∧
      r.status ≠ "success" ∧ r.session_active = false := by
  rw [login] at h
  cases hnp : env.newPageResult with
  | error e => rw [hnp] at h; exact Except.noConfusion h
  | ok u =>
    rw [hnp] at h
    simp only [hc, Bool.not_false, if_true] at h
    cases hg : env.gotoResult with
    | error e => rw [hg] at h; exact Except.noConfusion h
    | ok u1 =>
      rw [hg] at h
      cases hf : env.fillResult with
      | error e => rw [hf] at h; exact Except.noConfusion h
      | ok u2 =>
        rw [hf] at h
        cases hk : env.clickResult with
        | error e => rw [hk] at h; exact Except.noConfusion h
        | ok u3 =>
          rw [hk] at h
          cases hv : env.verificationPromptAppears with
          | true =>
            rw [hv, if_pos rfl] at h
            have := Except.ok.inj h
            rw [← this]
            exact ⟨Or.inl rfl, by decide, rfl⟩
          | false =>
            rw [hv] at h
            simp only [Bool.false_eq_true, if_false] at h
            have := Except.ok.inj h
            rw [← this]
            exact ⟨Or.inr rfl, by decide, rfl⟩

/-- C3 (amended) witness: the response of a concrete first call whose
prompt appears satisfies the amended classification. -/
theorem C3_amended_witness :
    (("verification_required" : String) = "verification_required" ∨
      ("verification_required" : String) = "error") ∧
    ("verification_required" : String) ≠ "success" ∧
    (⟨"verification_required", "Check your email for verification code",
      false⟩ : LoginResponse).session_active = false :=
  C3_amended envLoginOk ⟨"user@example.com", none⟩ []
    ⟨"verification_required", "Check your email for verification code", false⟩
    rfl rfl

/-- C4: when the verification code is supplied (nonempty) and every
browser operation of the second call succeeds, the outcome is
classified solely by the settled page URL: an authenticated-area URL
(containing "claude.ai/chat" or "claude.ai/new") yields status
"success" with session_active true, anything else yields status
"failed" with session_active false. -/
theorem C4_classify (env : LoginEnv) (req : LoginRequest) (st : List Page)
    (hc : optStrTruthy req.verification_code = true)
    (h1 : env.newPageResult = .ok ()) (h2 : env.gotoResult = .ok ())
    (h3 : env.fillResult = .ok ()) (h4 : env.clickResult = .ok ())
    (h5 : env.codeInputResult = .ok ()) (h6 : env.fillDigitsResult = .ok ())
    (h7 : env.settleResult = .ok ()) :
    (login env req st).1 =
      .ok (if pyContains env.finalUrl "claude.ai/chat" ||
              pyContains env.finalUrl "claude.ai/new" then
            ⟨"success", "Successfully logged in to Claude", true⟩
          else
            ⟨"failed", "Login failed - please check credentials", false⟩) := by
  rw [login, h1]
  simp only [hc, Bool.not_true, Bool.false_eq_true, if_false, h2, h3, h4, h5,
    h6, h7]
  split <;> rfl

/-- C4 witness: a concrete smooth second call whose settled URL is in
the authenticated area returns success with an active session. -/
theorem C4_classify_witness :
    (login envLoginOk ⟨"user@example.com", some "123456"⟩ []).1 =
      .ok ⟨"success", "Successfully logged in to Claude", true⟩ := by
  have h := C4_classify envLoginOk ⟨"user@example.com", some "123456"⟩ []
    rfl rfl rfl rfl rfl rfl rfl rfl
  exact h.trans rfl

/-- C5: an unclassified exception (here: a failing navigation with
message `e`) makes POST /login raise a 500 whose detail is the
exception string, while POST /oauth/authorize returns a normal body
with success false and error equal to the exception string; moreover
the only HTTPException the authorize handler ever lets escape is the
login-redirect 401, so it never surfaces a 5xx. -/
theorem C5_exception_policy (lenv : LoginEnv) (oenv : OAuthEnv)
    (lreq : LoginRequest) (oreq : OAuthRequest) (st : List Page) (e : String)
    (hl : lenv.newPageResult = .ok ()) (ho : oenv.newPageResult = .ok ()) :
    (lenv.gotoResult = .error e → (login lenv lreq st).1 = .error ⟨500, e⟩) ∧
    (oenv.gotoResult = .error e →
      (authorize oenv oreq st).1 = .ok ⟨false, none, some e⟩) ∧
    (∀ err, (authorize oenv oreq st).1 = .error err →
      err = ⟨401, "Not logged in. Please use /login endpoint first."⟩) := by
  refine ⟨fun hg => ?_, fun hg => ?_, fun err herr => ?_⟩
  · rw [login, hl]
    cases hc : !(optStrTruthy lreq.verification_code) with
    | true => simp only [hc, if_true]; rw [hg]
    | false => simp only [hc, Bool.false_eq_true, if_false]; rw [hg]
  · cases st with
    | nil => rw [authorize, ho, authorizeCore, hg]
    | cons p rest => rw [authorize, authorizeCore, hg]
  · cases st with
    | nil =>
      rw [authorize, ho] at herr
      exact authorizeCore_error oenv true (freshPage []) [] err herr
    | cons p rest =>
      rw [authorize] at herr
      exact authorizeCore_error oenv false p rest err herr

/-- C5 witness: with a navigation failure "boom", the login endpoint
raises 500 "boom" and the authorize endpoint returns a success-false
body carrying "boom". -/
theorem C5_exception_policy_witness :
    (login envLoginGotoFail ⟨"user@example.com", none⟩ []).1 =
      .error ⟨500, "boom"⟩ ∧
    (authorize envOAuthGotoFail ⟨"https://idp.example/consent"⟩ []).1 =
      .ok ⟨false, none, some "boom"⟩ := by
  have h := C5_exception_policy envLoginGotoFail envOAuthGotoFail
    ⟨"user@example.com", none⟩ ⟨"https://idp.example/consent"⟩ [] "boom" rfl rfl
  exact ⟨h.1 rfl, h.2.1 rfl⟩

/-- C6: when the URL reached after navigating to the caller-supplied
OAuth URL indicates a login redirect (contains "login"), the call is
rejected with the 401 unauthenticated error (given navigation itself
succeeded), and no authorization code is ever returned on that call:
any non-raising outcome has success false and no code. -/
theorem C6_login_redirect (env : OAuthEnv) (req : OAuthRequest)
    (st : List Page) (hl : pyContains env.urlAfterGoto "login" = true) :
    (env.newPageResult = .ok () → env.gotoResult = .ok () →
      (authorize env req st).1 =
        .error ⟨401, "Not logged in. Please use /login endpoint first."⟩) ∧
    (∀ r, (authorize env req st).1 = .ok r →
      r.success = false ∧ r.code = none) := by
  have hcore401 : ∀ isNew p others, env.gotoResult = .ok () →
      (authorizeCore env isNew p others).1 =
        .error ⟨401, "Not logged in. Please use /login endpoint first."⟩ := by
    intro isNew p others hg
    simp [authorizeCore, hg, hl]
  have hcoreOk : ∀ isNew p others r,
      (authorizeCore env isNew p others).1 = .ok r →
      r.success = false ∧ r.code = none := by
    intro isNew p others r hr
    cases hg : env.gotoResult with
    | error e =>
      rw [authorizeCore, hg] at hr
      obtain rfl := Except.ok.inj hr
      exact ⟨rfl, rfl⟩
    | ok u =>
      rw [hcore401 isNew p others hg] at hr
      exact Except.noConfusion hr
  constructor
  · intro hnp hg
    cases st with
    | nil => rw [authorize, hnp]; exact hcore401 true (freshPage []) [] hg
    | cons p rest => rw [authorize]; exact hcore401 false p rest hg
  · intro r hr
    cases st with
    | nil =>
      rw [authorize] at hr
      cases hnp : env.newPageResult with
      | error e =>
        rw [hnp] at hr
        obtain rfl := Except.ok.inj hr
        exact ⟨rfl, rfl⟩
      | ok u =>
        rw [hnp] at hr
        exact hcoreOk true (freshPage []) [] r hr
    | cons p rest =>
      rw [authorize] at hr
      exact hcoreOk false p rest r hr

/-- C6 witness: a concrete call landing on the login page is rejected
with the 401 unauthenticated error. -/
theorem C6_login_redirect_witness :
    (authorize envOAuthLogin ⟨"https://idp.example/oauth?c=1"⟩ [p0]).1 =
      .error ⟨401, "Not logged in. Please use /login endpoint first."⟩ :=
  (C6_login_redirect envOAuthLogin ⟨"https://idp.example/oauth?c=1"⟩ [p0]
    rfl).1 rfl rfl

/-- C7: when clicks themselves succeed, the authorize-button loop
clicks exactly the first selector of the fixed priority list whose
element is visible (`List.find?`), and when no candidate is visible the
endpoint returns success false with the error "Could not find authorize
button on page", not any extraction result. -/
theorem C7_button_priority (env : OAuthEnv) (req : OAuthRequest)
    (st : List Page) (b : String)
    (hclick : ∀ s ∈ authorize_selectors, (env.selProbe s).click = .ok ()) :
    clickFirstVisible env.selProbe authorize_selectors =
      authorize_selectors.find? (visProbeTrue env.selProbe) ∧
    (authorize_selectors.find? (visProbeTrue env.selProbe) = none →
      env.newPageResult = .ok () → env.gotoResult = .ok () →
      pyContains env.urlAfterGoto "login" = false → env.bodyText = .ok b →
      (authorize env req st).1 =
        .ok ⟨false, none, some "Could not find authorize button on page"⟩) := by
  have h1 := clickFirstVisible_eq_find env.selProbe authorize_selectors hclick
  refine ⟨h1, fun hfind hnp hg hl hb => ?_⟩
  have hnone : clickFirstVisible env.selProbe authorize_selectors = none :=
    h1.trans hfind
  have hcore : ∀ isNew p others, (authorizeCore env isNew p others).1 =
      .ok ⟨false, none, some "Could not find authorize button on page"⟩ := by
    intro isNew p others
    simp [authorizeCore, hg, hl, hnone, hb]
  cases st with
  | nil => rw [authorize, hnp]; exact hcore true (freshPage []) []
  | cons p rest => rw [authorize]; exact hcore false p rest

/-- C7 witness: with every candidate invisible, the button loop clicks
nothing and the endpoint reports the button-not-found failure. -/
theorem C7_button_priority_witness :
    clickFirstVisible envOAuthNoBtn.selProbe authorize_selectors =
      authorize_selectors.find? (visProbeTrue envOAuthNoBtn.selProbe) ∧
    (authorize envOAuthNoBtn ⟨"https://idp.example/consent"⟩ [p0]).1 =
      .ok ⟨false, none, some "Could not find authorize button on page"⟩ := by
  have h := C7_button_priority envOAuthNoBtn ⟨"https://idp.example/consent"⟩
    [p0] "body text" (fun s _ => rfl)
  exact ⟨h.1, h.2 rfl rfl rfl rfl rfl⟩

/-- C8: after a successful click and settlement, the returned response
is exactly the combination, in fixed order, of the three extraction
strategies — the `code=` URL parameter, the code-display elements, and
the three regex patterns over the rendered HTML — with the first
success winning and the diagnostic failure message when all three
yield nothing. -/
theorem C8_extraction_order (env : OAuthEnv) (req : OAuthRequest)
    (st : List Page) (s : String)
    (hnp : env.newPageResult = .ok ()) (hg : env.gotoResult = .ok ())
    (hl : pyContains env.urlAfterGoto "login" = false)
    (hclick : clickFirstVisible env.selProbe authorize_selectors = some s)
    (hs : env.settleResult = .ok ()) :
    (authorize env req st).1 =
      .ok (extractResult (stratA env.finalUrl) (stratB env.codeProbe)
        (stratC env.pageContent)) := by
  have hcore : ∀ isNew p others, (authorizeCore env isNew p others).1 =
      .ok (extractResult (stratA env.finalUrl) (stratB env.codeProbe)
        (stratC env.pageContent)) := by
    intro isNew p others
    simp [authorizeCore, hg, hl, hclick, hs, extractPhase_fst]
  cases st with
  | nil => rw [authorize, hnp]; exact hcore true (freshPage []) []
  | cons p rest => rw [authorize]; exact hcore false p rest

/-- C8 witness: with no `code=` in the final URL and a visible
code-display element, the second strategy wins and its text is
returned stripped. -/
theorem C8_extraction_order_witness :
    (authorize envOAuthTextCode ⟨"https://idp.example/consent"⟩ [p0]).1 =
      .ok ⟨true, some "ABCDEFGHIJK123", none⟩ := by
  have h := C8_extraction_order envOAuthTextCode ⟨"https://idp.example/consent"⟩
    [p0] "button:has-text(\"Authorize\")" rfl rfl rfl rfl rfl
  exact h.trans rfl

/-- C9: an authenticated GET /status with no open page reports zero
pages, no URL and logged_in false; with at least one page open it
reports the first page's URL and logged_in exactly when that URL
contains "claude.ai/chat" or "claude.ai/new". -/
theorem C9_status (KEY : String) (hne : KEY ≠ "") :
    statusEndpoint KEY (some KEY) (some []) =
      (.ok ⟨true, 0, none, false⟩, some []) ∧
    ∀ p ps, statusEndpoint KEY (some KEY) (some (p :: ps)) =
      (.ok ⟨true, (p :: ps).length, some p.url,
          pyContains p.url "claude.ai/chat" || pyContains p.url "claude.ai/new"⟩,
        some (p :: ps)) := by
  have h1 : optStrTruthy (some KEY) = true := bne_iff_ne.mpr hne
  have hv : verify_api_key KEY (some KEY) = .ok KEY := by
    rw [verify_api_key, h1]
    simp
  constructor
  · rw [statusEndpoint, withAuth, hv]
    rfl
  · intro p ps
    rw [statusEndpoint, withAuth, hv]
    rfl

/-- C9 witness: with key "secret", the empty context reports zero pages
and logged_in false, and a context whose first page sits on an
authenticated URL reports logged_in true. -/
theorem C9_status_witness :
    statusEndpoint "secret" (some "secret") (some []) =
      (.ok ⟨true, 0, none, false⟩, some []) ∧
    statusEndpoint "secret" (some "secret") (some [p0]) =
      (.ok ⟨true, 1, some "https://claude.ai/new", true⟩, some [p0]) := by
  have h := C9_status "secret" (by decide)
  exact ⟨h.1, (h.2 p0 []).trans rfl⟩

/-- C10: when the context already holds at least one page, POST
/oauth/authorize reuses that first page and closes nothing on any
return path: the identities of the open pages after the call are
exactly those before it. -/
theorem C10_page_preservation (env : OAuthEnv) (req : OAuthRequest)
    (p : Page) (rest : List Page) :
    ((authorize env req (p :: rest)).2).map Page.id =
      (p :: rest).map Page.id := by
  rw [authorize]
  cases hg : env.gotoResult with
  | error e => simp [authorizeCore, hg]
  | ok u =>
    cases hl : pyContains env.urlAfterGoto "login" with
    | true => simp [authorizeCore, hg, hl]
    | false =>
      cases hc : clickFirstVisible env.selProbe authorize_selectors with
      | none =>
        cases hb : env.bodyText with
        | error e => simp [authorizeCore, hg, hl, hc, hb]
        | ok t => simp [authorizeCore, hg, hl, hc, hb]
      | some s =>
        cases hs : env.settleResult with
        | error e => simp [authorizeCore, hg, hl, hc, hs]
        | ok u2 =>
          cases hA : stratA env.finalUrl with
          | some c => simp [authorizeCore, extractPhase, hg, hl, hc, hs, hA]
          | none =>
            cases hB : stratB env.codeProbe with
            | some t =>
              simp [authorizeCore, extractPhase, hg, hl, hc, hs, hA, hB]
            | none =>
              cases hC : stratC env.pageContent with
              | some c =>
                simp [authorizeCore, extractPhase, hg, hl, hc, hs, hA, hB, hC]
              | none =>
                simp [authorizeCore, extractPhase, hg, hl, hc, hs, hA, hB, hC]

end ClaudeOAuth
